import Mathlib

/-!
# SiteGuard backend — verification of the domain-rules layer

Shallow embedding of the SiteGuard construction-management backend
(TypeScript/Express/Mongoose) into Lean 4, covering:

* the resource status classifier (`calculateResourceStatus`),
* the workspace aggregate service (create, toggle status, resource
  add / update / quantity update / bulk replace, safety reports),
* the ownership-scoped lookup (`getWorkspaceById`),
* the authentication service (`login`),
* the architecture-plan service.

Modelling conventions:

* JavaScript numbers are modelled as `ℚ` (all numeric literals involved —
  including `0.5` — are exactly representable, and the arithmetic performed
  by the code on them is exact in IEEE double precision for these programs'
  comparisons, so `ℚ` is a faithful abstraction).
* The document store is a `List Workspace`; Mongoose `findOne {_id, userId}`
  is `List.find?` over it and `save` rewrites the matching document.
  A thrown service error returns the store as it was at the throw point,
  which mirrors the fact that the database is only written by `save`.
* The external `uuidv4` generator is modelled as an injective fresh-id
  supply threaded as a natural-number counter.
* The ambient clock (`new Date().toISOString().split('T')[0]`) is passed
  in as an explicit `today` parameter.
* JavaScript falsy checks `!s` on string fields are modelled as `s = ""`
  (absent and empty string are treated identically by the code); checks
  `x === undefined` on numeric fields are modelled with `Option ℚ`.
-/

namespace SiteGuard

/-- The `'Good' | 'Low' | 'Critical'` union type of `IResourceItem.status`. -/
inductive ResourceStatus
  | Good
  | Low
  | Critical
deriving DecidableEq, Repr

/-- The `'Under Construction' | 'Finished'` union type of `IWorkspace.status`. -/
inductive WorkspaceStatus
  | UnderConstruction
  | Finished
deriving DecidableEq, Repr

/-- The error taxonomy of `core/error.response` as used by the services:
`BadRequestError` (400), `NotFoundError` (404), `AuthFailureError` (401),
and the reserved, unused `ForbiddenError` (403). Each carries its message. -/
inductive ServiceError
  | BadRequestError (msg : String)
  | NotFoundError (msg : String)
  | AuthFailureError (msg : String)
  | ForbiddenError (msg : String)
deriving DecidableEq, Repr

/-- From `workspace.service.ts` (and identically `resource.service.ts`):

```ts
const calculateResourceStatus = (quantity, threshold) => {
  if (quantity <= threshold * 0.5) return 'Critical';
  if (quantity <= threshold) return 'Low';
  return 'Good';
};
```
-/
def calculateResourceStatus (quantity threshold : ℚ) : ResourceStatus :=
  if quantity ≤ threshold * (1 / 2) then .Critical
  else if quantity ≤ threshold then .Low
  else .Good

/-- `IResourceItem` from `models/Workspace.ts`. -/
structure IResourceItem where
  id : String
  name : String
  quantity : ℚ
  unit : String
  threshold : ℚ
  status : ResourceStatus
deriving DecidableEq, Repr

/-- `IArchitectureSection` from `models/Workspace.ts`. -/
structure IArchitectureSection where
  title : String
  description : String
deriving DecidableEq, Repr

/-- `IArchitectureMaterial` from `models/Workspace.ts`. -/
structure IArchitectureMaterial where
  name : String
  quantity : String
  specification : String
deriving DecidableEq, Repr

/-- `IArchitectureStage` from `models/Workspace.ts`. -/
structure IArchitectureStage where
  phase : String
  duration : String
  tasks : List String
deriving DecidableEq, Repr

/-- `IArchitecturePlan` from `models/Workspace.ts` (the `createdAt` timestamp
is carried as an opaque string supplied by the ambient clock). -/
structure IArchitecturePlan where
  sections : List IArchitectureSection
  materials : List IArchitectureMaterial
  stages : List IArchitectureStage
  summary : String
  createdAt : String
deriving DecidableEq, Repr

/-- The `'Low' | 'Medium' | 'High'` union type of `IHazard.severity`. -/
inductive Severity
  | Low
  | Medium
  | High
deriving DecidableEq, Repr

/-- `IHazard` from `models/Workspace.ts`. -/
structure IHazard where
  description : String
  severity : Severity
  recommendation : String
deriving DecidableEq, Repr

/-- `ISafetyReport` from `models/Workspace.ts`. -/
structure ISafetyReport where
  id : String
  date : String
  riskScore : ℚ
  hazards : List IHazard
  summary : String
deriving DecidableEq, Repr

/-- `IWorkspace` from `models/Workspace.ts` (persistence metadata such as
`lastUpdated`/`createdAt`/`updatedAt` timestamps, maintained by Mongoose
hooks, is omitted: no claim concerns it). -/
structure Workspace where
  _id : String
  userId : String
  name : String
  location : String
  stage : String
  type : String
  budget : String
  status : WorkspaceStatus
  progress : ℚ
  safetyScore : ℚ
  resources : List IResourceItem
  architecturePlan : Option IArchitecturePlan
  safetyReports : List ISafetyReport
deriving DecidableEq, Repr

/-- The Workspaces collection of the document store. -/
abbrev Store := List Workspace

/-- `Workspace.findOne({ _id: workspaceId, userId })`: the single query
filtered by both the document id and the owner id. -/
def findOne (store : Store) (workspaceId userId : String) : Option Workspace :=
  store.find? (fun w => w._id = workspaceId ∧ w.userId = userId)

/-- `workspace.save()`: rewrite the document with the matching `_id`. -/
def saveWorkspace (store : Store) (w : Workspace) : Store :=
  store.map (fun x => if x._id = w._id then w else x)

/-- Model of the external `uuidv4` generator: an injective fresh-id supply
threaded as a counter. Returns the fresh id and the next counter state. -/
def uuidv4 (g : Nat) : String × Nat := (String.mk (List.replicate (g + 1) 'u'), g + 1)

/-- `getWorkspaceById` from `workspace.service.ts`: a single ownership-scoped
query; a missing document and an owner mismatch produce the same error. -/
def getWorkspaceById (store : Store) (workspaceId userId : String) :
    Except ServiceError Workspace :=
  match findOne store workspaceId userId with
  | none => .error (.NotFoundError "Workspace not found")
  | some workspace => .ok workspace

/-- `CreateWorkspaceData` from `workspace.service.ts`. -/
structure CreateWorkspaceData where
  name : String
  location : String
  stage : String
  type : String
  budget : String
deriving DecidableEq, Repr

/-- `createWorkspace` from `workspace.service.ts`: validates the five
mandatory fields (JS falsy check on strings, i.e. `= ""`), builds the five
default resources with hardcoded `status: 'Low'`, and creates the document
with `progress: 0`, `safetyScore: 100`, `status: 'Under Construction'`. -/
def createWorkspace (store : Store) (userId : String) (workspaceData : CreateWorkspaceData)
    (g : Nat) : Except ServiceError Workspace × Store × Nat :=
  if workspaceData.name = "" ∨ workspaceData.location = "" ∨ workspaceData.stage = "" ∨
      workspaceData.type = "" ∨ workspaceData.budget = "" then
    (.error (.BadRequestError "All required fields must be provided"), store, g)
  else
    let (id1, g1) := uuidv4 g
    let (id2, g2) := uuidv4 g1
    let (id3, g3) := uuidv4 g2
    let (id4, g4) := uuidv4 g3
    let (id5, g5) := uuidv4 g4
    let defaultResources : List IResourceItem :=
      [ ⟨id1, "Cement", 0, "Bags", 100, .Low⟩,
        ⟨id2, "Sand", 0, "Tons", 50, .Low⟩,
        ⟨id3, "Granite", 0, "Tons", 30, .Low⟩,
        ⟨id4, "Iron Rods", 0, "Pieces", 250, .Low⟩,
        ⟨id5, "Blocks", 0, "Units", 1000, .Low⟩ ]
    let (wid, g6) := uuidv4 g5
    let workspace : Workspace :=
      { _id := wid
        userId := userId
        name := workspaceData.name
        location := workspaceData.location
        stage := workspaceData.stage
        type := workspaceData.type
        budget := workspaceData.budget
        status := .UnderConstruction
        progress := 0
        safetyScore := 100
        resources := defaultResources
        architecturePlan := none
        safetyReports := [] }
    (.ok workspace, store ++ [workspace], g6)

/-- `toggleStatus` from `workspace.service.ts`: flip the lifecycle status,
then force `progress := 100` whenever the new status is `Finished`. -/
def toggleStatus (store : Store) (workspaceId userId : String) :
    Except ServiceError Workspace × Store :=
  match findOne store workspaceId userId with
  | none => (.error (.NotFoundError "Workspace not found"), store)
  | some workspace =>
    let status1 :=
      if workspace.status = .UnderConstruction then WorkspaceStatus.Finished
      else WorkspaceStatus.UnderConstruction
    let progress1 := if status1 = .Finished then (100 : ℚ) else workspace.progress
    let ws : Workspace := { workspace with status := status1, progress := progress1 }
    (.ok ws, saveWorkspace store ws)

/-- `AddResourceData` from `workspace.service.ts` / `resource.service.ts`:
the numeric fields are `Option` because the code guards them with
`=== undefined` checks on the duck-typed request body. -/
structure AddResourceData where
  name : String
  quantity : Option ℚ
  unit : String
  threshold : Option ℚ
deriving DecidableEq, Repr

/-- `addResource`: field-presence check, non-negativity check, ownership
lookup, then append a new item whose status comes from the classifier. -/
def addResource (store : Store) (workspaceId userId : String) (resourceData : AddResourceData)
    (g : Nat) : Except ServiceError IResourceItem × Store × Nat :=
  if resourceData.name = "" ∨ resourceData.quantity = none ∨ resourceData.unit = "" ∨
      resourceData.threshold = none then
    (.error (.BadRequestError "All resource fields are required"), store, g)
  else
    let quantity := resourceData.quantity.getD 0
    let threshold := resourceData.threshold.getD 0
    if quantity < 0 ∨ threshold < 0 then
      (.error (.BadRequestError "Quantity and threshold must be positive numbers"), store, g)
    else
      match findOne store workspaceId userId with
      | none => (.error (.NotFoundError "Workspace not found"), store, g)
      | some workspace =>
        let (rid, g1) := uuidv4 g
        let newResource : IResourceItem :=
          ⟨rid, resourceData.name, quantity, resourceData.unit, threshold,
            calculateResourceStatus quantity threshold⟩
        let ws : Workspace := { workspace with resources := workspace.resources ++ [newResource] }
        (.ok newResource, saveWorkspace store ws, g1)

/-- In-place mutation of the first resource with the given id, as done by
`workspace.resources.find(...)` followed by field assignment. -/
def setFirst (rs : List IResourceItem) (resourceId : String) (r1 : IResourceItem) :
    List IResourceItem :=
  match rs with
  | [] => []
  | r :: rest => if r.id = resourceId then r1 :: rest else r :: setFirst rest resourceId r1

/-- `updateResourceQuantity`: negativity check, ownership lookup, resource
lookup, then set the quantity and recompute the status from the classifier. -/
def updateResourceQuantity (store : Store) (workspaceId resourceId userId : String)
    (quantity : ℚ) : Except ServiceError IResourceItem × Store :=
  if quantity < 0 then
    (.error (.BadRequestError "Quantity must be a positive number"), store)
  else
    match findOne store workspaceId userId with
    | none => (.error (.NotFoundError "Workspace not found"), store)
    | some workspace =>
      match workspace.resources.find? (fun r => r.id = resourceId) with
      | none => (.error (.NotFoundError "Resource not found"), store)
      | some resource =>
        let resource1 : IResourceItem :=
          { resource with
            quantity := quantity
            status := calculateResourceStatus quantity resource.threshold }
        let ws : Workspace :=
          { workspace with resources := setFirst workspace.resources resourceId resource1 }
        (.ok resource1, saveWorkspace store ws)

/-- `UpdateResourceData` from `workspace.service.ts`. -/
structure UpdateResourceData where
  name : Option String
  quantity : Option ℚ
  unit : Option String
  threshold : Option ℚ
deriving DecidableEq, Repr

/-- The `if (updateData.quantity !== undefined)` block of `updateResource`. -/
def applyQuantity (r : IResourceItem) : Option ℚ → Except ServiceError IResourceItem
  | some q =>
    if q < 0 then .error (.BadRequestError "Quantity must be a positive number")
    else .ok { r with quantity := q }
  | none => .ok r

/-- The `if (updateData.threshold !== undefined)` block of `updateResource`. -/
def applyThreshold (r : IResourceItem) : Option ℚ → Except ServiceError IResourceItem
  | some t =>
    if t < 0 then .error (.BadRequestError "Threshold must be a positive number")
    else .ok { r with threshold := t }
  | none => .ok r

/-- The field-by-field mutation sequence in the body of `updateResource`:
apply `name`, validate-and-apply `quantity`, apply `unit`, validate-and-apply
`threshold`, then recompute `status` from the (possibly updated) quantity and
threshold. -/
def applyResourceUpdate (resource : IResourceItem) (updateData : UpdateResourceData) :
    Except ServiceError IResourceItem :=
  let r1 := match updateData.name with
    | some n => { resource with name := n }
    | none => resource
  match applyQuantity r1 updateData.quantity with
  | .error e => .error e
  | .ok r2 =>
    let r3 := match updateData.unit with
      | some u => { r2 with unit := u }
      | none => r2
    match applyThreshold r3 updateData.threshold with
    | .error e => .error e
    | .ok r4 => .ok { r4 with status := calculateResourceStatus r4.quantity r4.threshold }

/-- `updateResource`: ownership lookup, resource lookup, then the mutation
sequence of `applyResourceUpdate` followed by a save. -/
def updateResource (store : Store) (workspaceId resourceId userId : String)
    (updateData : UpdateResourceData) : Except ServiceError IResourceItem × Store :=
  match findOne store workspaceId userId with
  | none => (.error (.NotFoundError "Workspace not found"), store)
  | some workspace =>
    match workspace.resources.find? (fun r => r.id = resourceId) with
    | none => (.error (.NotFoundError "Resource not found"), store)
    | some resource =>
      match applyResourceUpdate resource updateData with
      | .error e => (.error e, store)
      | .ok resource1 =>
        let ws : Workspace :=
          { workspace with resources := setFirst workspace.resources resourceId resource1 }
        (.ok resource1, saveWorkspace store ws)

/-- The body of the `resources.map` callback in `bulkReplaceResources`:
validate one incoming item and build the replacement `IResourceItem`
(throwing aborts the whole map). -/
def mkBulkItem (r : AddResourceData) (g : Nat) : Except ServiceError (IResourceItem × Nat) :=
  if r.name = "" ∨ r.quantity = none ∨ r.unit = "" ∨ r.threshold = none then
    .error (.BadRequestError "All resource fields are required for bulk replace")
  else
    let quantity := r.quantity.getD 0
    let threshold := r.threshold.getD 0
    if quantity < 0 ∨ threshold < 0 then
      .error (.BadRequestError "Quantity and threshold must be positive numbers")
    else
      .ok (⟨(uuidv4 g).1, r.name, quantity, r.unit, threshold,
            calculateResourceStatus quantity threshold⟩, (uuidv4 g).2)

/-- `resources.map(...)` with a throwing callback: left-to-right, failing as
a whole as soon as one item fails. -/
def mapBulk : List AddResourceData → Nat → Except ServiceError (List IResourceItem × Nat)
  | [], g => .ok ([], g)
  | r :: rest, g =>
    match mkBulkItem r g with
    | .error e => .error e
    | .ok (item, g1) =>
      match mapBulk rest g1 with
      | .error e => .error e
      | .ok (items, g2) => .ok (item :: items, g2)

/-- `bulkReplaceResources`: ownership lookup, validation of every incoming
item, then replacement of the whole `resources` array and a single save. -/
def bulkReplaceResources (store : Store) (workspaceId userId : String)
    (resources : List AddResourceData) (g : Nat) :
    Except ServiceError (List IResourceItem) × Store × Nat :=
  match findOne store workspaceId userId with
  | none => (.error (.NotFoundError "Workspace not found"), store, g)
  | some workspace =>
    match mapBulk resources g with
    | .error e => (.error e, store, g)
    | .ok (newResources, g1) =>
      let ws : Workspace := { workspace with resources := newResources }
      (.ok newResources, saveWorkspace store ws, g1)

/-- The request body of `saveSafetyReport` (`Omit<ISafetyReport, 'id' | 'date'>`). -/
structure SaveSafetyReportData where
  riskScore : ℚ
  hazards : List IHazard
  summary : String
deriving DecidableEq, Repr

/-- `saveSafetyReport`: ownership lookup, risk-score range check, then a new
report (fresh id, today's date) is prepended via `unshift` and the workspace
safety score becomes `Math.max(0, 100 - riskScore)`. -/
def saveSafetyReport (store : Store) (workspaceId userId : String)
    (reportData : SaveSafetyReportData) (today : String) (g : Nat) :
    Except ServiceError ISafetyReport × Store × Nat :=
  match findOne store workspaceId userId with
  | none => (.error (.NotFoundError "Workspace not found"), store, g)
  | some workspace =>
    if reportData.riskScore < 0 ∨ reportData.riskScore > 100 then
      (.error (.BadRequestError "Risk score must be between 0 and 100"), store, g)
    else
      let (rid, g1) := uuidv4 g
      let newReport : ISafetyReport :=
        ⟨rid, today, reportData.riskScore, reportData.hazards, reportData.summary⟩
      let ws : Workspace :=
        { workspace with
          safetyReports := newReport :: workspace.safetyReports
          safetyScore := max 0 (100 - reportData.riskScore) }
      (.ok newReport, saveWorkspace store ws, g1)

/-- `IUser` from `User.ts`: the stored `password` is the bcrypt hash and is
optional because queries omit it unless `select('+password')` is used. -/
structure IUser where
  _id : String
  name : String
  email : String
  password : Option String
deriving DecidableEq, Repr

/-- Model of `jwt.sign({ id }, secret, ...)`: an opaque token bound to the id. -/
def signToken (id : String) : String := "jwt:" ++ id

/-- `userSchema.methods.correctPassword` from `User.ts`: falsy stored
password verifies nothing, otherwise defer to `bcrypt.compare` (passed in as
a function parameter, since bcrypt is an external collaborator). -/
def correctPassword (bcryptCompare : String → String → Bool)
    (candidatePassword : String) (userPassword : Option String) : Bool :=
  match userPassword with
  | none => false
  | some pass => if pass = "" then false else bcryptCompare candidatePassword pass

/-- The duck-typed `{ email, password }` login body: `none` models an absent
field. -/
structure LoginData where
  email : Option String
  password : Option String
deriving DecidableEq, Repr

/-- JS falsy test on an optional string field (`!email`): absent or empty. -/
def falsyStr : Option String → Bool
  | none => true
  | some s => s = ""

/-- `login` from `auth.service.ts`: missing credentials → `BadRequestError`;
unknown email or failed password verification → the one shared
`AuthFailureError('Incorrect email or password')`; success returns the user
with the password field stripped plus a signed token. -/
def login (bcryptCompare : String → String → Bool) (users : List IUser)
    (userData : LoginData) : Except ServiceError (IUser × String) :=
  if falsyStr userData.email ∨ falsyStr userData.password then
    .error (.BadRequestError "Please provide email and password")
  else
    let email := userData.email.getD ""
    let password := userData.password.getD ""
    match users.find? (fun u => u.email = email) with
    | none => .error (.AuthFailureError "Incorrect email or password")
    | some user =>
      if correctPassword bcryptCompare password user.password then
        .ok ({ user with password := none }, signToken user._id)
      else
        .error (.AuthFailureError "Incorrect email or password")

/-- `getArchitectureSections` from `architecture.service.ts`: a workspace
with no plan yields `[]`, not an error. -/
def getArchitectureSections (store : Store) (workspaceId userId : String) :
    Except ServiceError (List IArchitectureSection) :=
  match findOne store workspaceId userId with
  | none => .error (.NotFoundError "Workspace not found")
  | some workspace =>
    match workspace.architecturePlan with
    | none => .ok []
    | some plan => .ok plan.sections

/-- `getArchitectureMaterials` from `architecture.service.ts`. -/
def getArchitectureMaterials (store : Store) (workspaceId userId : String) :
    Except ServiceError (List IArchitectureMaterial) :=
  match findOne store workspaceId userId with
  | none => .error (.NotFoundError "Workspace not found")
  | some workspace =>
    match workspace.architecturePlan with
    | none => .ok []
    | some plan => .ok plan.materials

/-- `getArchitectureStages` from `architecture.service.ts`. -/
def getArchitectureStages (store : Store) (workspaceId userId : String) :
    Except ServiceError (List IArchitectureStage) :=
  match findOne store workspaceId userId with
  | none => .error (.NotFoundError "Workspace not found")
  | some workspace =>
    match workspace.architecturePlan with
    | none => .ok []
    | some plan => .ok plan.stages

/-- `Partial<SaveArchitecturePlanData>` for `updateArchitecturePlan`. -/
structure UpdatePlanData where
  sections : Option (List IArchitectureSection)
  materials : Option (List IArchitectureMaterial)
  stages : Option (List IArchitectureStage)
  summary : Option String
deriving DecidableEq, Repr

/-- The field-by-field mutation sequence in `updateArchitecturePlan`:
each provided field must be non-empty (summary additionally non-blank after
`trim`, modelled as `trim ≠ ""`). -/
def applyPlanUpdate (plan : IArchitecturePlan) (planData : UpdatePlanData) :
    Except ServiceError IArchitecturePlan := do
  let p1 ← match planData.sections with
    | some s =>
      if s.length = 0 then Except.error (.BadRequestError "Sections must be a non-empty array")
      else pure { plan with sections := s }
    | none => pure plan
  let p2 ← match planData.materials with
    | some m =>
      if m.length = 0 then Except.error (.BadRequestError "Materials must be a non-empty array")
      else pure { p1 with materials := m }
    | none => pure p1
  let p3 ← match planData.stages with
    | some s =>
      if s.length = 0 then Except.error (.BadRequestError "Stages must be a non-empty array")
      else pure { p2 with stages := s }
    | none => pure p2
  match planData.summary with
    | some s =>
      if s.trim = "" then Except.error (.BadRequestError "Summary must be a non-empty string")
      else pure { p3 with summary := s }
    | none => pure p3

/-- `updateArchitecturePlan` from `architecture.service.ts`: ownership
lookup, then `NotFoundError` when the plan is absent, then partial update. -/
def updateArchitecturePlan (store : Store) (workspaceId userId : String)
    (planData : UpdatePlanData) : Except ServiceError IArchitecturePlan × Store :=
  match findOne store workspaceId userId with
  | none => (.error (.NotFoundError "Workspace not found"), store)
  | some workspace =>
    match workspace.architecturePlan with
    | none => (.error (.NotFoundError "Architecture plan not found"), store)
    | some plan =>
      match applyPlanUpdate plan planData with
      | .error e => (.error e, store)
      | .ok plan1 =>
        let ws : Workspace := { workspace with architecturePlan := some plan1 }
        (.ok plan1, saveWorkspace store ws)

/-- `deleteArchitecturePlan` from `architecture.service.ts`. -/
def deleteArchitecturePlan (store : Store) (workspaceId userId : String) :
    Except ServiceError Unit × Store :=
  match findOne store workspaceId userId with
  | none => (.error (.NotFoundError "Workspace not found"), store)
  | some workspace =>
    match workspace.architecturePlan with
    | none => (.error (.NotFoundError "Architecture plan not found"), store)
    | some _ =>
      let ws : Workspace := { workspace with architecturePlan := none }
      (.ok (), saveWorkspace store ws)

/-- `addArchitectureSection` from `architecture.service.ts`: input validation
precedes the lookups; a missing plan is `NotFoundError` with guidance. -/
def addArchitectureSection (store : Store) (workspaceId userId : String)
    (section1 : IArchitectureSection) : Except ServiceError IArchitecturePlan × Store :=
  if section1.title = "" ∨ section1.description = "" then
    (.error (.BadRequestError "Section title and description are required"), store)
  else
    match findOne store workspaceId userId with
    | none => (.error (.NotFoundError "Workspace not found"), store)
    | some workspace =>
      match workspace.architecturePlan with
      | none =>
        (.error (.NotFoundError "Architecture plan not found. Please create a plan first."), store)
      | some plan =>
        let plan1 : IArchitecturePlan := { plan with sections := plan.sections ++ [section1] }
        let ws : Workspace := { workspace with architecturePlan := some plan1 }
        (.ok plan1, saveWorkspace store ws)

/-- `addArchitectureMaterial` from `architecture.service.ts`. -/
def addArchitectureMaterial (store : Store) (workspaceId userId : String)
    (material : IArchitectureMaterial) : Except ServiceError IArchitecturePlan × Store :=
  if material.name = "" ∨ material.quantity = "" ∨ material.specification = "" then
    (.error (.BadRequestError "Material name, quantity, and specification are required"), store)
  else
    match findOne store workspaceId userId with
    | none => (.error (.NotFoundError "Workspace not found"), store)
    | some workspace =>
      match workspace.architecturePlan with
      | none =>
        (.error (.NotFoundError "Architecture plan not found. Please create a plan first."), store)
      | some plan =>
        let plan1 : IArchitecturePlan := { plan with materials := plan.materials ++ [material] }
        let ws : Workspace := { workspace with architecturePlan := some plan1 }
        (.ok plan1, saveWorkspace store ws)

/-- `addArchitectureStage` from `architecture.service.ts` (the `tasks` list
must also be present and non-empty). -/
def addArchitectureStage (store : Store) (workspaceId userId : String)
    (stage1 : IArchitectureStage) : Except ServiceError IArchitecturePlan × Store :=
  if stage1.phase = "" ∨ stage1.duration = "" ∨ stage1.tasks.length = 0 then
    (.error (.BadRequestError "Stage phase, duration, and tasks are required"), store)
  else
    match findOne store workspaceId userId with
    | none => (.error (.NotFoundError "Workspace not found"), store)
    | some workspace =>
      match workspace.architecturePlan with
      | none =>
        (.error (.NotFoundError "Architecture plan not found. Please create a plan first."), store)
      | some plan =>
        let plan1 : IArchitecturePlan := { plan with stages := plan.stages ++ [stage1] }
        let ws : Workspace := { workspace with architecturePlan := some plan1 }
        (.ok plan1, saveWorkspace store ws)

/-- The validity condition that `bulkReplaceResources` (and `addResource`)
impose on one incoming item: all four fields present (name/unit non-falsy,
quantity/threshold defined) and the numeric fields non-negative. -/
def ValidResourceInput (r : AddResourceData) : Prop :=
  r.name ≠ "" ∧ r.quantity ≠ none ∧ r.unit ≠ "" ∧ r.threshold ≠ none ∧
    0 ≤ r.quantity.getD 0 ∧ 0 ≤ r.threshold.getD 0

instance (r : AddResourceData) : Decidable (ValidResourceInput r) := by
  unfold ValidResourceInput; infer_instance

/-- Every resource item of the workspace carries the status the classifier
assigns to its own quantity and threshold. -/
def statusInvariant (w : Workspace) : Prop :=
  ∀ r ∈ w.resources, r.status = calculateResourceStatus r.quantity r.threshold

/-- `statusInvariant` holds of every workspace document in the store. -/
def storeStatusInvariant (s : Store) : Prop := ∀ w ∈ s, statusInvariant w

/-- The four public resource mutations of the service layer. -/
inductive ResourceOp
  | add (resourceData : AddResourceData)
  | updateQuantity (resourceId : String) (quantity : ℚ)
  | update (resourceId : String) (updateData : UpdateResourceData)
  | bulkReplace (resources : List AddResourceData)

/-- Run one resource mutation against the store and return the post-state of
the store (the result value is dropped; an error leaves the store as the
service returned it). -/
def runResourceOp (store : Store) (workspaceId userId : String) :
    ResourceOp → Nat → Store
  | .add rd, g => (addResource store workspaceId userId rd g).2.1
  | .updateQuantity rid q, _ => (updateResourceQuantity store workspaceId rid userId q).2
  | .update rid ud, _ => (updateResource store workspaceId rid userId ud).2
  | .bulkReplace rs, g => (bulkReplaceResources store workspaceId userId rs g).2.1

/-- A concrete workspace document used to instantiate the theorems. -/
def demoWorkspace : Workspace :=
  { _id := "w1"
    userId := "u1"
    name := "Site A"
    location := "Lagos"
    stage := "Planning"
    type := "Residential"
    budget := "5000000"
    status := .UnderConstruction
    progress := 12
    safetyScore := 100
    resources := [⟨"r1", "Cement", 40, "Bags", 100, .Critical⟩]
    architecturePlan := none
    safetyReports := [] }

/-- A one-document store holding `demoWorkspace`. -/
def demoStore : Store := [demoWorkspace]

/-- A concrete valid `createWorkspace` request body. -/
def demoCreateData : CreateWorkspaceData :=
  ⟨"Site A", "Lagos", "Planning", "Residential", "5000000"⟩

/-! ## Supporting lemmas -/

theorem uuidv4_injective {a b : Nat} (h : (uuidv4 a).1 = (uuidv4 b).1) : a = b := by
  have := congrArg (fun s : String => s.data.length) h
  simpa [uuidv4] using this

theorem uuidv4_ne {a b : Nat} (h : a ≠ b) : (uuidv4 a).1 ≠ (uuidv4 b).1 :=
  fun he => h (uuidv4_injective he)

theorem replicate_mk_ne {a b : Nat} (h : a ≠ b) :
    String.mk (List.replicate a 'u') ≠ String.mk (List.replicate b 'u') := by
  intro he
  apply h
  have := congrArg (fun s : String => s.data.length) he
  simpa using this

theorem demoStore_statusInvariant : storeStatusInvariant demoStore := by
  intro w hw r hr
  simp only [demoStore, List.mem_singleton] at hw
  subst hw
  simp only [demoWorkspace, List.mem_singleton] at hr
  subst hr
  norm_num [calculateResourceStatus]

theorem findOne_eq_none {store : Store} {workspaceId userId : String}
    (h : ∀ w ∈ store, ¬(w._id = workspaceId ∧ w.userId = userId)) :
    findOne store workspaceId userId = none := by
  simp only [findOne, List.find?_eq_none, decide_eq_true_eq]
  exact h

theorem findOne_mem {store : Store} {workspaceId userId : String} {w : Workspace}
    (h : findOne store workspaceId userId = some w) : w ∈ store := by
  unfold findOne at h
  exact List.mem_of_find?_eq_some h

theorem storeStatusInvariant_save {store : Store} {w : Workspace}
    (hs : storeStatusInvariant store) (hw : statusInvariant w) :
    storeStatusInvariant (saveWorkspace store w) := by
  intro x hx
  simp only [saveWorkspace, List.mem_map] at hx
  obtain ⟨y, hy, hxy⟩ := hx
  by_cases hid : y._id = w._id
  · rw [if_pos hid] at hxy
    exact hxy ▸ hw
  · rw [if_neg hid] at hxy
    exact hxy ▸ hs y hy

theorem setFirst_mem {rs : List IResourceItem} {resourceId : String} {r1 r : IResourceItem}
    (h : r ∈ setFirst rs resourceId r1) : r ∈ rs ∨ r = r1 := by
  induction rs with
  | nil => simp [setFirst] at h
  | cons a as ih =>
    by_cases ha : a.id = resourceId
    · simp only [setFirst, if_pos ha, List.mem_cons] at h
      rcases h with h | h
      · exact Or.inr h
      · exact Or.inl (List.mem_cons_of_mem _ h)
    · simp only [setFirst, if_neg ha, List.mem_cons] at h
      rcases h with h | h
      · exact Or.inl (h ▸ List.mem_cons_self _ _)
      · rcases ih h with h' | h'
        · exact Or.inl (List.mem_cons_of_mem _ h')
        · exact Or.inr h'

theorem applyResourceUpdate_status {resource : IResourceItem} {updateData : UpdateResourceData}
    {r1 : IResourceItem} (h : applyResourceUpdate resource updateData = .ok r1) :
    r1.status = calculateResourceStatus r1.quantity r1.threshold := by
  simp only [applyResourceUpdate] at h
  split at h
  · exact absurd h (by simp)
  · split at h
    · exact absurd h (by simp)
    · simp only [Except.ok.injEq] at h
      rw [← h]

theorem mkBulkItem_ok_of_valid {r : AddResourceData} (g : Nat) (h : ValidResourceInput r) :
    mkBulkItem r g =
      .ok (⟨(uuidv4 g).1, r.name, r.quantity.getD 0, r.unit, r.threshold.getD 0,
        calculateResourceStatus (r.quantity.getD 0) (r.threshold.getD 0)⟩, (uuidv4 g).2) := by
  obtain ⟨h1, h2, h3, h4, h5, h6⟩ := h
  unfold mkBulkItem
  rw [if_neg (by simp [h1, h2, h3, h4]), if_neg (by push_neg; exact ⟨h5, h6⟩)]

theorem mkBulkItem_error_of_invalid {r : AddResourceData} (g : Nat)
    (h : ¬ValidResourceInput r) :
    ∃ msg, mkBulkItem r g = .error (.BadRequestError msg) := by
  by_cases h1 : r.name = "" ∨ r.quantity = none ∨ r.unit = "" ∨ r.threshold = none
  · exact ⟨"All resource fields are required for bulk replace",
      by simp only [mkBulkItem, if_pos h1]⟩
  · by_cases h2 : r.quantity.getD 0 < 0 ∨ r.threshold.getD 0 < 0
    · exact ⟨"Quantity and threshold must be positive numbers",
        by simp only [mkBulkItem, if_neg h1, if_pos h2]⟩
    · exfalso
      push_neg at h1 h2
      exact h ⟨h1.1, h1.2.1, h1.2.2.1, h1.2.2.2, h2.1, h2.2⟩

theorem mkBulkItem_ok_status {r : AddResourceData} {g : Nat} {item : IResourceItem} {g1 : Nat}
    (h : mkBulkItem r g = .ok (item, g1)) :
    item.status = calculateResourceStatus item.quantity item.threshold := by
  simp only [mkBulkItem] at h
  split at h
  · exact absurd h (by simp)
  · split at h
    · exact absurd h (by simp)
    · simp only [Except.ok.injEq, Prod.mk.injEq] at h
      rw [← h.1]

theorem mapBulk_ok_status {rs : List AddResourceData} {g : Nat} {items : List IResourceItem}
    {g1 : Nat} (h : mapBulk rs g = .ok (items, g1)) :
    ∀ i ∈ items, i.status = calculateResourceStatus i.quantity i.threshold := by
  induction rs generalizing g items g1 with
  | nil =>
    simp only [mapBulk, Except.ok.injEq, Prod.mk.injEq] at h
    rw [← h.1]
    simp
  | cons a as ih =>
    simp only [mapBulk] at h
    cases hm : mkBulkItem a g with
    | error e => simp [hm] at h
    | ok x =>
      obtain ⟨item, g2⟩ := x
      simp only [hm] at h
      cases hmb : mapBulk as g2 with
      | error e => simp [hmb] at h
      | ok y =>
        obtain ⟨items2, g3⟩ := y
        simp only [hmb, Except.ok.injEq, Prod.mk.injEq] at h
        rw [← h.1]
        intro i hi
        rcases List.mem_cons.mp hi with hi | hi
        · exact hi ▸ mkBulkItem_ok_status hm
        · exact ih hmb i hi

theorem mapBulk_ok_of_valid {rs : List AddResourceData} (g : Nat)
    (h : ∀ r ∈ rs, ValidResourceInput r) :
    ∃ items g1, mapBulk rs g = .ok (items, g1) ∧ items.length = rs.length := by
  induction rs generalizing g with
  | nil => exact ⟨[], g, rfl, rfl⟩
  | cons a as ih =>
    obtain ⟨items, g1, hok, hlen⟩ := ih (uuidv4 g).2 (fun r hr => h r (List.mem_cons_of_mem _ hr))
    refine ⟨⟨(uuidv4 g).1, a.name, a.quantity.getD 0, a.unit, a.threshold.getD 0,
      calculateResourceStatus (a.quantity.getD 0) (a.threshold.getD 0)⟩ :: items, g1,
      ?_, by simp [hlen]⟩
    simp only [mapBulk, mkBulkItem_ok_of_valid g (h a (List.mem_cons_self _ _)), hok]

theorem mapBulk_error_of_invalid {rs : List AddResourceData} (g : Nat)
    (h : ∃ r ∈ rs, ¬ValidResourceInput r) :
    ∃ msg, mapBulk rs g = .error (.BadRequestError msg) := by
  induction rs generalizing g with
  | nil => simp at h
  | cons a as ih =>
    by_cases ha : ValidResourceInput a
    · obtain ⟨r, hr, hnr⟩ := h
      have hr' : r ∈ as := by
        rcases List.mem_cons.mp hr with h' | h'
        · exact absurd (h' ▸ ha) hnr
        · exact h'
      obtain ⟨msg, hmsg⟩ := ih (uuidv4 g).2 ⟨r, hr', hnr⟩
      exact ⟨msg, by simp only [mapBulk, mkBulkItem_ok_of_valid g ha, hmsg]⟩
    · obtain ⟨msg, hmsg⟩ := mkBulkItem_error_of_invalid g ha
      exact ⟨msg, by simp only [mapBulk, hmsg]⟩

/-! ## Claim theorems -/

/-- C1: for every quantity `q ≥ 0` and threshold `t > 0`, the classifier
returns `Critical` iff `q ≤ t * 0.5`, `Low` iff `t * 0.5 < q ≤ t`, and
`Good` iff `q > t`, checking the conditions in that order; it is a pure
total function with no error case. -/
theorem calculateResourceStatus_spec (q t : ℚ) (hq : 0 ≤ q) (ht : 0 < t) :
    (calculateResourceStatus q t = .Critical ↔ q ≤ t * (1 / 2)) ∧
    (calculateResourceStatus q t = .Low ↔ t * (1 / 2) < q ∧ q ≤ t) ∧
    (calculateResourceStatus q t = .Good ↔ t < q) := by
  unfold calculateResourceStatus
  split_ifs with h1 h2 <;>
    refine ⟨?_, ?_, ?_⟩ <;> simp_all <;> linarith

/-- Witness for `calculateResourceStatus_spec` at `q = 3`, `t = 4`. -/
theorem calculateResourceStatus_spec_witness :
    (0 ≤ (3 : ℚ)) ∧ (0 < (4 : ℚ)) ∧
    (calculateResourceStatus 3 4 = .Low ↔ (4 : ℚ) * (1 / 2) < 3 ∧ (3 : ℚ) ≤ 4) :=
  ⟨by norm_num, by norm_num,
   (calculateResourceStatus_spec 3 4 (by norm_num) (by norm_num)).2.1⟩

/-- C10: at the boundary `threshold = 0` of the declared domain, the
classifier returns `Critical` for `quantity = 0`, `Good` for every
`quantity > 0`, and the `Low` tier is unreachable. -/
theorem calculateResourceStatus_zero_threshold :
    calculateResourceStatus 0 0 = .Critical ∧
    (∀ q : ℚ, 0 < q → calculateResourceStatus q 0 = .Good) ∧
    (∀ q : ℚ, 0 ≤ q → calculateResourceStatus q 0 ≠ .Low) := by
  refine ⟨by norm_num [calculateResourceStatus], ?_, ?_⟩ <;>
    intro q hq <;> unfold calculateResourceStatus <;>
    split_ifs with h1 h2 <;> simp_all <;> linarith

/-- Witness for `calculateResourceStatus_zero_threshold` at `q = 7`. -/
theorem calculateResourceStatus_zero_threshold_witness :
    (0 < (7 : ℚ)) ∧ calculateResourceStatus 7 0 = .Good :=
  ⟨by norm_num, calculateResourceStatus_zero_threshold.2.1 7 (by norm_num)⟩

/-- C7: when no stored workspace matches both the requested id and the
requesting identity — the id does not exist, or the document is owned by a
different user — `getWorkspaceById` returns the one fixed `NotFoundError`
(never a `ForbiddenError`), produced by the single `(id, ownerId)`-filtered
query; in particular, two stores in which the caller owns no matching
workspace are indistinguishable through this operation. -/
theorem getWorkspaceById_no_leak (store1 store2 : Store) (workspaceId userId : String)
    (h1 : ∀ w ∈ store1, ¬(w._id = workspaceId ∧ w.userId = userId))
    (h2 : ∀ w ∈ store2, ¬(w._id = workspaceId ∧ w.userId = userId)) :
    getWorkspaceById store1 workspaceId userId = .error (.NotFoundError "Workspace not found") ∧
    getWorkspaceById store1 workspaceId userId = getWorkspaceById store2 workspaceId userId := by
  have e1 : getWorkspaceById store1 workspaceId userId =
      .error (.NotFoundError "Workspace not found") := by
    unfold getWorkspaceById
    rw [findOne_eq_none h1]
  have e2 : getWorkspaceById store2 workspaceId userId =
      .error (.NotFoundError "Workspace not found") := by
    unfold getWorkspaceById
    rw [findOne_eq_none h2]
  exact ⟨e1, e1.trans e2.symm⟩

/-- Witness for `getWorkspaceById_no_leak`: `demoStore` holds a workspace
with id `"w1"` owned by `"u1"`; the lookup of `"w1"` by the non-owner
`"u2"` (exists-but-not-yours) equals the lookup in the empty store
(does-not-exist). -/
theorem getWorkspaceById_no_leak_witness :
    (∀ w ∈ demoStore, ¬(w._id = "w1" ∧ w.userId = "u2")) ∧
    getWorkspaceById demoStore "w1" "u2" = .error (.NotFoundError "Workspace not found") ∧
    getWorkspaceById demoStore "w1" "u2" = getWorkspaceById [] "w1" "u2" :=
  ⟨by decide,
   (getWorkspaceById_no_leak demoStore [] "w1" "u2" (by decide) (by simp)).1,
   (getWorkspaceById_no_leak demoStore [] "w1" "u2" (by decide) (by simp)).2⟩

/-- C4: on an existing owned workspace, `toggleStatus` flips
`UnderConstruction ↔ Finished`; whenever the resulting status is `Finished`
the progress is forced to `100` regardless of its prior value, and the
transition back to `UnderConstruction` leaves progress unchanged. -/
theorem toggleStatus_spec (store : Store) (workspaceId userId : String) (ws : Workspace)
    (h : findOne store workspaceId userId = some ws) :
    ∃ ws1, toggleStatus store workspaceId userId = (.ok ws1, saveWorkspace store ws1) ∧
      (ws.status = .UnderConstruction → ws1.status = .Finished ∧ ws1.progress = 100) ∧
      (ws.status = .Finished → ws1.status = .UnderConstruction ∧ ws1.progress = ws.progress) ∧
      (ws1.status = .Finished → ws1.progress = 100) := by
  unfold toggleStatus
  rw [h]
  cases hs : ws.status with
  | UnderConstruction =>
    refine ⟨{ ws with status := .Finished, progress := 100 }, ?_, ?_, ?_, ?_⟩ <;> simp [hs]
  | Finished =>
    refine ⟨{ ws with status := .UnderConstruction, progress := ws.progress }, ?_, ?_, ?_, ?_⟩ <;>
      simp [hs]

/-- Witness for `toggleStatus_spec`: `demoWorkspace` is under construction
with progress 12; the toggle yields `Finished` with progress 100. -/
theorem toggleStatus_spec_witness :
    findOne demoStore "w1" "u1" = some demoWorkspace ∧
    ∃ ws1, toggleStatus demoStore "w1" "u1" = (.ok ws1, saveWorkspace demoStore ws1) ∧
      (demoWorkspace.status = .UnderConstruction → ws1.status = .Finished ∧ ws1.progress = 100) ∧
      (demoWorkspace.status = .Finished →
        ws1.status = .UnderConstruction ∧ ws1.progress = demoWorkspace.progress) ∧
      (ws1.status = .Finished → ws1.progress = 100) :=
  ⟨by rfl, toggleStatus_spec demoStore "w1" "u1" demoWorkspace (by rfl)⟩

/-- C3: for every valid create input (all five fields non-empty),
`createWorkspace` produces a workspace with exactly the five default
resources named Cement, Sand, Granite, Iron Rods, Blocks, each with
quantity 0, a distinct generated id, and status `Low`; progress is 0,
safetyScore is 100, and the lifecycle status is `UnderConstruction`. -/
theorem createWorkspace_spec (store : Store) (userId : String) (wd : CreateWorkspaceData)
    (g : Nat) (hn : wd.name ≠ "") (hl : wd.location ≠ "") (hs : wd.stage ≠ "")
    (ht : wd.type ≠ "") (hb : wd.budget ≠ "") :
    ∃ ws g1, createWorkspace store userId wd g = (.ok ws, store ++ [ws], g1) ∧
      ws.resources.map (fun r => r.name) =
        ["Cement", "Sand", "Granite", "Iron Rods", "Blocks"] ∧
      (∀ r ∈ ws.resources, r.quantity = 0 ∧ r.status = .Low) ∧
      (ws.resources.map (fun r => r.id)).Pairwise (fun a b => a ≠ b) ∧
      ws.progress = 0 ∧ ws.safetyScore = 100 ∧ ws.status = .UnderConstruction := by
  unfold createWorkspace
  rw [if_neg (by simp [hn, hl, hs, ht, hb])]
  refine ⟨_, _, rfl, rfl, by simp, ?_, rfl, rfl, rfl⟩
  simp only [List.map_cons, List.map_nil, uuidv4]
  refine List.Pairwise.cons ?_ (List.Pairwise.cons ?_ (List.Pairwise.cons ?_
    (List.Pairwise.cons ?_ (List.Pairwise.cons ?_ List.Pairwise.nil)))) <;>
    intro b hb' <;> fin_cases hb' <;> exact replicate_mk_ne (by omega)

/-- Witness for `createWorkspace_spec` on `demoCreateData` in the empty
store with counter 0. -/
theorem createWorkspace_spec_witness :
    demoCreateData.name ≠ "" ∧
    ∃ ws g1, createWorkspace [] "u1" demoCreateData 0 = (.ok ws, [] ++ [ws], g1) ∧
      ws.resources.map (fun r => r.name) =
        ["Cement", "Sand", "Granite", "Iron Rods", "Blocks"] ∧
      (∀ r ∈ ws.resources, r.quantity = 0 ∧ r.status = .Low) ∧
      (ws.resources.map (fun r => r.id)).Pairwise (fun a b => a ≠ b) ∧
      ws.progress = 0 ∧ ws.safetyScore = 100 ∧ ws.status = .UnderConstruction :=
  ⟨by decide,
   createWorkspace_spec [] "u1" demoCreateData 0
     (by decide) (by decide) (by decide) (by decide) (by decide)⟩

/-- C5: on an existing owned workspace, `saveSafetyReport` fails with
`BadRequestError` exactly when the risk score is outside `[0, 100]`; on
success it assigns a generated id and today's date to the new report,
prepends it to the history (prior reports preserved in order), and sets the
workspace safety score to `max 0 (100 - riskScore)` of this single report,
independent of the prior safety score or earlier reports. -/
theorem saveSafetyReport_spec (store : Store) (workspaceId userId : String)
    (reportData : SaveSafetyReportData) (today : String) (g : Nat) (ws : Workspace)
    (h : findOne store workspaceId userId = some ws) :
    ((reportData.riskScore < 0 ∨ reportData.riskScore > 100) →
      saveSafetyReport store workspaceId userId reportData today g =
        (.error (.BadRequestError "Risk score must be between 0 and 100"), store, g)) ∧
    (0 ≤ reportData.riskScore → reportData.riskScore ≤ 100 →
      ∃ rep ws1,
        saveSafetyReport store workspaceId userId reportData today g =
          (.ok rep, saveWorkspace store ws1, (uuidv4 g).2) ∧
        rep.id = (uuidv4 g).1 ∧ rep.date = today ∧ rep.riskScore = reportData.riskScore ∧
        ws1.safetyReports = rep :: ws.safetyReports ∧
        ws1.safetyScore = max 0 (100 - reportData.riskScore)) := by
  simp only [saveSafetyReport, h]
  constructor
  · intro hbad
    rw [if_pos hbad]
  · intro h0 h100
    rw [if_neg (by rintro (hc | hc) <;> linarith)]
    exact ⟨_, _, rfl, rfl, rfl, rfl, rfl, rfl⟩

/-- Witness for `saveSafetyReport_spec`: risk score 30 on `demoWorkspace`
yields a report prepended to the empty history and safety score 70. -/
theorem saveSafetyReport_spec_witness :
    findOne demoStore "w1" "u1" = some demoWorkspace ∧ (0 : ℚ) ≤ 30 ∧ (30 : ℚ) ≤ 100 ∧
    ∃ rep ws1,
      saveSafetyReport demoStore "w1" "u1" ⟨30, [], "routine check"⟩ "2026-10-12" 0 =
        (.ok rep, saveWorkspace demoStore ws1, (uuidv4 0).2) ∧
      rep.id = (uuidv4 0).1 ∧ rep.date = "2026-10-12" ∧ rep.riskScore = (30 : ℚ) ∧
      ws1.safetyReports = rep :: demoWorkspace.safetyReports ∧
      ws1.safetyScore = max 0 (100 - (30 : ℚ)) :=
  ⟨by rfl, by norm_num, by norm_num,
   (saveSafetyReport_spec demoStore "w1" "u1" ⟨30, [], "routine check"⟩ "2026-10-12" 0
      demoWorkspace (by rfl)).2 (by norm_num) (by norm_num)⟩

/-- C6: `bulkReplaceResources` is all-or-nothing on an existing owned
workspace: if any incoming item is invalid (missing name, quantity, unit or
threshold, or a negative quantity or threshold) the operation fails with
`BadRequestError` and the store — hence the workspace's resource list — is
completely unchanged; if every item is valid, the workspace's whole resource
collection is replaced at once by the validated items. -/
theorem bulkReplaceResources_atomic (store : Store) (workspaceId userId : String)
    (resources : List AddResourceData) (g : Nat) (ws : Workspace)
    (h : findOne store workspaceId userId = some ws) :
    ((∃ r ∈ resources, ¬ValidResourceInput r) →
      ∃ msg, bulkReplaceResources store workspaceId userId resources g =
        (.error (.BadRequestError msg), store, g)) ∧
    ((∀ r ∈ resources, ValidResourceInput r) →
      ∃ items g1, items.length = resources.length ∧
        bulkReplaceResources store workspaceId userId resources g =
          (.ok items, saveWorkspace store { ws with resources := items }, g1)) := by
  unfold bulkReplaceResources
  rw [h]
  constructor
  · intro hbad
    obtain ⟨msg, hmsg⟩ := mapBulk_error_of_invalid g hbad
    exact ⟨msg, by rw [hmsg]⟩
  · intro hgood
    obtain ⟨items, g1, hok, hlen⟩ := mapBulk_ok_of_valid g hgood
    exact ⟨items, g1, hlen, by rw [hok]⟩

/-- Witness for `bulkReplaceResources_atomic`: a two-item batch whose second
item has a negative quantity aborts the replace and returns the store
untouched. -/
theorem bulkReplaceResources_atomic_witness :
    findOne demoStore "w1" "u1" = some demoWorkspace ∧
    (∃ r ∈ [AddResourceData.mk "Paint" (some 50) "L" (some 30),
            AddResourceData.mk "Tiles" (some (-10)) "Pcs" (some 100)],
      ¬ValidResourceInput r) ∧
    ∃ msg, bulkReplaceResources demoStore "w1" "u1"
        [AddResourceData.mk "Paint" (some 50) "L" (some 30),
         AddResourceData.mk "Tiles" (some (-10)) "Pcs" (some 100)] 0 =
      (.error (.BadRequestError msg), demoStore, 0) :=
  ⟨by rfl,
   ⟨AddResourceData.mk "Tiles" (some (-10)) "Pcs" (some 100), by decide⟩,
   (bulkReplaceResources_atomic demoStore "w1" "u1"
      [AddResourceData.mk "Paint" (some 50) "L" (some 30),
       AddResourceData.mk "Tiles" (some (-10)) "Pcs" (some 100)] 0 demoWorkspace (by rfl)).1
     ⟨AddResourceData.mk "Tiles" (some (-10)) "Pcs" (some 100), by decide⟩⟩

/-- C8: `login` fails with `BadRequestError` iff the email or the password
is absent (falsy); otherwise it fails with the single fixed
`AuthFailureError` iff no user matches the email or the password does not
verify — so the error for a nonexistent email is identical to the error for
a wrong password on an existing email; on success the returned user has the
password field stripped. -/
theorem login_spec (bcryptCompare : String → String → Bool) (users : List IUser)
    (userData : LoginData) :
    ((falsyStr userData.email ∨ falsyStr userData.password) ↔
      login bcryptCompare users userData =
        .error (.BadRequestError "Please provide email and password")) ∧
    (¬falsyStr userData.email → ¬falsyStr userData.password →
      (login bcryptCompare users userData =
          .error (.AuthFailureError "Incorrect email or password") ↔
        (users.find? (fun v => v.email = userData.email.getD "") = none ∨
          ∃ u, users.find? (fun v => v.email = userData.email.getD "") = some u ∧
            correctPassword bcryptCompare (userData.password.getD "") u.password = false))) ∧
    (∀ u tok, login bcryptCompare users userData = .ok (u, tok) → u.password = none) ∧
    (∀ d1 d2 : LoginData,
      ¬falsyStr d1.email → ¬falsyStr d1.password →
      ¬falsyStr d2.email → ¬falsyStr d2.password →
      users.find? (fun v => v.email = d1.email.getD "") = none →
      (∃ u, users.find? (fun v => v.email = d2.email.getD "") = some u ∧
        correctPassword bcryptCompare (d2.password.getD "") u.password = false) →
      login bcryptCompare users d1 = login bcryptCompare users d2) := by
  have h_bad : ∀ d : LoginData, (falsyStr d.email ∨ falsyStr d.password) →
      login bcryptCompare users d =
        .error (.BadRequestError "Please provide email and password") := by
    intro d hf
    unfold login
    rw [if_pos hf]
  have h_none : ∀ d : LoginData, ¬falsyStr d.email → ¬falsyStr d.password →
      users.find? (fun v => v.email = d.email.getD "") = none →
      login bcryptCompare users d =
        .error (.AuthFailureError "Incorrect email or password") := by
    intro d he hp hfind
    unfold login
    rw [if_neg (fun hor => hor.elim he hp)]
    simp only [hfind]
  have h_some : ∀ (d : LoginData) (u : IUser), ¬falsyStr d.email → ¬falsyStr d.password →
      users.find? (fun v => v.email = d.email.getD "") = some u →
      login bcryptCompare users d =
        if correctPassword bcryptCompare (d.password.getD "") u.password then
          Except.ok ({ u with password := none }, signToken u._id)
        else .error (.AuthFailureError "Incorrect email or password") := by
    intro d u he hp hfind
    unfold login
    rw [if_neg (fun hor => hor.elim he hp)]
    simp only [hfind]
  refine ⟨⟨fun hf => h_bad userData hf, ?_⟩, ?_, ?_, ?_⟩
  · intro heq
    by_contra hnf
    push_neg at hnf
    obtain ⟨he, hp⟩ := hnf
    cases hfind : users.find? (fun v => v.email = userData.email.getD "") with
    | none =>
      rw [h_none userData he hp hfind] at heq
      exact absurd heq (by simp)
    | some u =>
      rw [h_some userData u he hp hfind] at heq
      by_cases hc : correctPassword bcryptCompare (userData.password.getD "") u.password
      · rw [if_pos hc] at heq
        exact absurd heq (by simp)
      · rw [if_neg hc] at heq
        exact absurd heq (by simp)
  · intro he hp
    constructor
    · intro heq
      cases hfind : users.find? (fun v => v.email = userData.email.getD "") with
      | none => exact Or.inl rfl
      | some u =>
        rcases Bool.eq_false_or_eq_true
            (correctPassword bcryptCompare (userData.password.getD "") u.password) with hc | hc
        · rw [h_some userData u he hp hfind, if_pos hc] at heq
          exact absurd heq (by simp)
        · exact Or.inr ⟨u, rfl, hc⟩
    · intro hcase
      rcases hcase with hfind | ⟨u, hfind, hc⟩
      · exact h_none userData he hp hfind
      · rw [h_some userData u he hp hfind, if_neg (by simp [hc])]
  · intro u tok heq
    by_cases hf : falsyStr userData.email ∨ falsyStr userData.password
    · rw [h_bad userData hf] at heq
      exact absurd heq (by simp)
    · push_neg at hf
      obtain ⟨he, hp⟩ := hf
      cases hfind : users.find? (fun v => v.email = userData.email.getD "") with
      | none =>
        rw [h_none userData he hp hfind] at heq
        exact absurd heq (by simp)
      | some v =>
        rw [h_some userData v he hp hfind] at heq
        by_cases hc : correctPassword bcryptCompare (userData.password.getD "") v.password
        · rw [if_pos hc] at heq
          simp only [Except.ok.injEq, Prod.mk.injEq] at heq
          rw [← heq.1]
        · rw [if_neg hc] at heq
          exact absurd heq (by simp)
  · intro d1 d2 he1 hp1 he2 hp2 hfind1 hex
    obtain ⟨u, hfind2, hc⟩ := hex
    rw [h_none d1 he1 hp1 hfind1, h_some d2 u he2 hp2 hfind2, if_neg (by simp [hc])]

/-- Witness for `login_spec`: one registered user; logging in with a
nonexistent email and logging in with the right email but wrong password
produce the same result. -/
theorem login_spec_witness :
    (¬falsyStr (some "nobody@x.com") ∧ ¬falsyStr (some "pw") ∧
      ¬falsyStr (some "ada@x.com") ∧ ¬falsyStr (some "wrong") ∧
      [IUser.mk "u1" "Ada" "ada@x.com" (some "hash:pw")].find?
        (fun v => v.email = (some "nobody@x.com" : Option String).getD "") = none ∧
      ∃ u, [IUser.mk "u1" "Ada" "ada@x.com" (some "hash:pw")].find?
          (fun v => v.email = (some "ada@x.com" : Option String).getD "") = some u ∧
        correctPassword (fun c p => p = "hash:" ++ c) ("wrong" : String) u.password = false) ∧
    login (fun c p => p = "hash:" ++ c) [IUser.mk "u1" "Ada" "ada@x.com" (some "hash:pw")]
        ⟨some "nobody@x.com", some "pw"⟩ =
      login (fun c p => p = "hash:" ++ c) [IUser.mk "u1" "Ada" "ada@x.com" (some "hash:pw")]
        ⟨some "ada@x.com", some "wrong"⟩ :=
  ⟨⟨by decide, by decide, by decide, by decide, by decide,
    ⟨IUser.mk "u1" "Ada" "ada@x.com" (some "hash:pw"), by decide, by decide⟩⟩,
   (login_spec (fun c p => p = "hash:" ++ c)
      [IUser.mk "u1" "Ada" "ada@x.com" (some "hash:pw")]
      ⟨some "nobody@x.com", some "pw"⟩).2.2.2
     ⟨some "nobody@x.com", some "pw"⟩ ⟨some "ada@x.com", some "wrong"⟩
     (by decide) (by decide) (by decide) (by decide) (by decide)
     ⟨IUser.mk "u1" "Ada" "ada@x.com" (some "hash:pw"), by decide, by decide⟩⟩

/-- C9: on an existing owned workspace with no architecture plan, the
sub-collection queries (sections, materials, stages) return empty lists
rather than errors, while every mutation on the missing plan — update,
delete, and the add operations (with field-valid payloads) — fails with
`NotFoundError` and leaves the store, hence the workspace, unchanged. -/
theorem missingPlan_spec (store : Store) (workspaceId userId : String) (ws : Workspace)
    (h : findOne store workspaceId userId = some ws) (hp : ws.architecturePlan = none) :
    getArchitectureSections store workspaceId userId = .ok [] ∧
    getArchitectureMaterials store workspaceId userId = .ok [] ∧
    getArchitectureStages store workspaceId userId = .ok [] ∧
    (∀ pd : UpdatePlanData, updateArchitecturePlan store workspaceId userId pd =
      (.error (.NotFoundError "Architecture plan not found"), store)) ∧
    deleteArchitecturePlan store workspaceId userId =
      (.error (.NotFoundError "Architecture plan not found"), store) ∧
    (∀ s : IArchitectureSection, s.title ≠ "" → s.description ≠ "" →
      addArchitectureSection store workspaceId userId s =
        (.error (.NotFoundError "Architecture plan not found. Please create a plan first."),
          store)) ∧
    (∀ m : IArchitectureMaterial, m.name ≠ "" → m.quantity ≠ "" → m.specification ≠ "" →
      addArchitectureMaterial store workspaceId userId m =
        (.error (.NotFoundError "Architecture plan not found. Please create a plan first."),
          store)) ∧
    (∀ st : IArchitectureStage, st.phase ≠ "" → st.duration ≠ "" → st.tasks.length ≠ 0 →
      addArchitectureStage store workspaceId userId st =
        (.error (.NotFoundError "Architecture plan not found. Please create a plan first."),
          store)) := by
  refine ⟨?_, ?_, ?_, ?_, ?_, ?_, ?_, ?_⟩
  · simp [getArchitectureSections, h, hp]
  · simp [getArchitectureMaterials, h, hp]
  · simp [getArchitectureStages, h, hp]
  · intro pd
    simp [updateArchitecturePlan, h, hp]
  · simp [deleteArchitecturePlan, h, hp]
  · intro s h1 h2
    simp [addArchitectureSection, h, hp, h1, h2]
  · intro m h1 h2 h3
    simp [addArchitectureMaterial, h, hp, h1, h2, h3]
  · intro st h1 h2 h3
    simp [addArchitectureStage, h, hp, h1, h2, h3]

/-- Witness for `missingPlan_spec`: `demoWorkspace` has no plan; section
queries give `[]` and plan deletion gives `NotFoundError` with the store
untouched. -/
theorem missingPlan_spec_witness :
    findOne demoStore "w1" "u1" = some demoWorkspace ∧
    demoWorkspace.architecturePlan = none ∧
    getArchitectureSections demoStore "w1" "u1" = .ok [] ∧
    deleteArchitecturePlan demoStore "w1" "u1" =
      (.error (.NotFoundError "Architecture plan not found"), demoStore) :=
  ⟨by rfl, by rfl,
   (missingPlan_spec demoStore "w1" "u1" demoWorkspace (by rfl) (by rfl)).1,
   (missingPlan_spec demoStore "w1" "u1" demoWorkspace (by rfl) (by rfl)).2.2.2.2.1⟩

/-- C2 counterexample: the claim "the stored status field always equals the
classifier applied to the item's own quantity and threshold, for every item
reachable through any public operation including workspace creation" is
false — `createWorkspace` hardcodes status `Low` on all five default items,
while the classifier maps their quantity 0 and thresholds to `Critical`. -/
theorem createWorkspace_status_cex :
    ((createWorkspace [] "u1" demoCreateData 0).1.map
        (fun ws => ws.resources.map
          (fun r => (r.status, calculateResourceStatus r.quantity r.threshold)))) =
      .ok [(.Low, .Critical), (.Low, .Critical), (.Low, .Critical),
           (.Low, .Critical), (.Low, .Critical)] := by
  unfold createWorkspace
  rw [if_neg (by simp [demoCreateData])]
  norm_num [Except.map, calculateResourceStatus]

/-- C2 (amended): every resource mutation — add, quantity update, field
update, bulk replace — only ever writes `calculateResourceStatus(quantity,
threshold)` into an item's status, so each preserves the store-wide
invariant that every stored item's status equals the classifier applied to
its own quantity and threshold; `createWorkspace`, however, hardcodes
status `Low` on its five default items, for which the classifier yields
`Critical` (quantity 0 is at most half of each default threshold). -/
theorem resourceStatus_invariant :
    (∀ (store : Store) (workspaceId userId : String) (op : ResourceOp) (g : Nat),
      storeStatusInvariant store →
      storeStatusInvariant (runResourceOp store workspaceId userId op g)) ∧
    (∀ (store : Store) (userId : String) (wd : CreateWorkspaceData) (g : Nat)
      (ws : Workspace) (store1 : Store) (g1 : Nat),
      createWorkspace store userId wd g = (.ok ws, store1, g1) →
      ∀ r ∈ ws.resources, r.status = .Low ∧
        calculateResourceStatus r.quantity r.threshold = .Critical) := by
  constructor
  · intro store workspaceId userId op g hinv
    cases op with
    | add rd =>
      simp only [runResourceOp, addResource]
      split
      · exact hinv
      · split
        · exact hinv
        · split
          · exact hinv
          · next workspace hfind =>
            refine storeStatusInvariant_save hinv ?_
            intro r hr
            simp only [List.mem_append, List.mem_singleton] at hr
            rcases hr with hr | hr
            · exact hinv workspace (findOne_mem hfind) r hr
            · rw [hr]
    | updateQuantity rid q =>
      simp only [runResourceOp, updateResourceQuantity]
      split
      · exact hinv
      · split
        · exact hinv
        · next workspace hfind =>
          split
          · exact hinv
          · next resource hres =>
            refine storeStatusInvariant_save hinv ?_
            intro r hr
            rcases setFirst_mem hr with hr | hr
            · exact hinv workspace (findOne_mem hfind) r hr
            · rw [hr]
    | update rid ud =>
      simp only [runResourceOp, updateResource]
      split
      · exact hinv
      · next workspace hfind =>
        split
        · exact hinv
        · next resource hres =>
          split
          · exact hinv
          · next resource1 happ =>
            refine storeStatusInvariant_save hinv ?_
            intro r hr
            rcases setFirst_mem hr with hr | hr
            · exact hinv workspace (findOne_mem hfind) r hr
            · rw [hr]
              exact applyResourceUpdate_status happ
    | bulkReplace rs =>
      simp only [runResourceOp, bulkReplaceResources]
      split
      · exact hinv
      · next workspace hfind =>
        split
        · exact hinv
        · next newResources g1 hmap =>
          refine storeStatusInvariant_save hinv ?_
          intro r hr
          exact mapBulk_ok_status hmap r hr
  · intro store userId wd g ws store1 g1 h
    simp only [createWorkspace] at h
    split at h
    · exact absurd h (by simp)
    · simp only [Prod.mk.injEq, Except.ok.injEq] at h
      rw [← h.1]
      intro r hr
      fin_cases hr <;> exact ⟨rfl, by norm_num [calculateResourceStatus]⟩

/-- Witness for `resourceStatus_invariant`: `demoStore` satisfies the status
invariant and still does after a quantity update. -/
theorem resourceStatus_invariant_witness :
    storeStatusInvariant demoStore ∧
    storeStatusInvariant (runResourceOp demoStore "w1" "u1" (.updateQuantity "r1" 80) 0) :=
  ⟨demoStore_statusInvariant,
   resourceStatus_invariant.1 demoStore "w1" "u1" (.updateQuantity "r1" 80) 0
     demoStore_statusInvariant⟩

end SiteGuard
